import Mathlib

/-!
Shallow embedding of the Black-Scholes-Merton pricing engine and implied
volatility solver of `bsm_app/bsm_model.py`, together with theorems checking
the natural-language specification against it.

Python floats are modelled as real numbers; `scipy.stats.norm.cdf`/`norm.pdf`
with location 0 and scale 1 are modelled as the cumulative distribution
function and density of the standard normal distribution; a raised Python
`ValueError` is modelled as the `Except.error` branch of an `Except` result.
-/

open MeasureTheory ProbabilityTheory Set
open scoped NNReal

namespace BSM

/-- ASCII lowercasing of a single character, as Python `str.lower` does on
ASCII input (all option-type strings in the program are ASCII). -/
def lowerChar (c : Char) : Char :=
  if c.isUpper then Char.ofNat (c.toNat + 32) else c

/-- Python `s.lower()` restricted to ASCII strings: lowercases every
character of the string. -/
def lower (s : String) : String := ⟨s.data.map lowerChar⟩

/-- `scipy.stats.norm.pdf(x, 0.0, 1.0)`: the standard normal density. -/
noncomputable def normPdf (x : ℝ) : ℝ := gaussianPDFReal 0 1 x

/-- `scipy.stats.norm.cdf(x, 0.0, 1.0)`: the standard normal cumulative
distribution function. -/
noncomputable def normCdf (x : ℝ) : ℝ := ∫ t in Iic x, gaussianPDFReal 0 1 t

/-- The error raised by the pricing functions of `bsm_model.py`: a Python
`ValueError` carrying an invalid-option-type message. It is the only `raise`
in the module. -/
inductive PricingError
  | valueError
  deriving DecidableEq

/-- The `d1` expression as written inside `black_scholes`
(`bsm_model.py` line 23). -/
noncomputable def d1_black_scholes (S K T r sigma : ℝ) : ℝ :=
  (Real.log (S / K) + (r + 0.5 * sigma ^ 2) * T) / (sigma * Real.sqrt T)

/-- The `d2 = d1 - sigma * np.sqrt(T)` expression inside `black_scholes`
(`bsm_model.py` line 24). -/
noncomputable def d2_black_scholes (S K T r sigma : ℝ) : ℝ :=
  d1_black_scholes S K T r sigma - sigma * Real.sqrt T

/-- The `d1` expression as written inside `delta` (`bsm_model.py` line 42). -/
noncomputable def d1_delta (S K T r sigma : ℝ) : ℝ :=
  (Real.log (S / K) + (r + 0.5 * sigma ^ 2) * T) / (sigma * Real.sqrt T)

/-- The `d1` expression as written inside `gamma` (`bsm_model.py` line 52). -/
noncomputable def d1_gamma (S K T r sigma : ℝ) : ℝ :=
  (Real.log (S / K) + (r + 0.5 * sigma ^ 2) * T) / (sigma * Real.sqrt T)

/-- The `d1` expression as written inside `vega` (`bsm_model.py` line 58). -/
noncomputable def d1_vega (S K T r sigma : ℝ) : ℝ :=
  (Real.log (S / K) + (r + 0.5 * sigma ^ 2) * T) / (sigma * Real.sqrt T)

/-- The `d1` expression as written inside `theta` (`bsm_model.py` line 63). -/
noncomputable def d1_theta (S K T r sigma : ℝ) : ℝ :=
  (Real.log (S / K) + (r + 0.5 * sigma ^ 2) * T) / (sigma * Real.sqrt T)

/-- The `d2` expression as written inside `theta` (`bsm_model.py` line 64). -/
noncomputable def d2_theta (S K T r sigma : ℝ) : ℝ :=
  d1_theta S K T r sigma - sigma * Real.sqrt T

/-- The `d1` expression as written inside `rho` (`bsm_model.py` line 78). -/
noncomputable def d1_rho (S K T r sigma : ℝ) : ℝ :=
  (Real.log (S / K) + (r + 0.5 * sigma ^ 2) * T) / (sigma * Real.sqrt T)

/-- The `d2` expression as written inside `rho` (`bsm_model.py` line 79). -/
noncomputable def d2_rho (S K T r sigma : ℝ) : ℝ :=
  d1_rho S K T r sigma - sigma * Real.sqrt T

/-- `black_scholes(S, K, T, r, sigma, option_type)` from `bsm_model.py`:
computes `d1`, `d2`, then dispatches on `option_type.lower()`; an
unrecognized option type raises `ValueError`. -/
noncomputable def black_scholes (S K T r sigma : ℝ) (option_type : String) :
    Except PricingError ℝ :=
  let d1 := d1_black_scholes S K T r sigma
  let d2 := d2_black_scholes S K T r sigma
  if lower option_type == "call" then
    .ok (S * normCdf d1 - K * Real.exp (-r * T) * normCdf d2)
  else if lower option_type == "put" then
    .ok (K * Real.exp (-r * T) * normCdf (-d2) - S * normCdf (-d1))
  else
    .error .valueError

/-- `delta(S, K, T, r, sigma, option_type)` from `bsm_model.py`. -/
noncomputable def delta (S K T r sigma : ℝ) (option_type : String) :
    Except PricingError ℝ :=
  let d1 := d1_delta S K T r sigma
  if lower option_type == "call" then
    .ok (normCdf d1)
  else if lower option_type == "put" then
    .ok (normCdf d1 - 1)
  else
    .error .valueError

/-- `gamma(S, K, T, r, sigma)` from `bsm_model.py`; takes no option type. -/
noncomputable def gamma (S K T r sigma : ℝ) : ℝ :=
  normPdf (d1_gamma S K T r sigma) / (S * sigma * Real.sqrt T)

/-- `vega(S, K, T, r, sigma)` from `bsm_model.py`; takes no option type. -/
noncomputable def vega (S K T r sigma : ℝ) : ℝ :=
  S * normPdf (d1_vega S K T r sigma) * Real.sqrt T

/-- `theta(S, K, T, r, sigma, option_type)` from `bsm_model.py`. -/
noncomputable def theta (S K T r sigma : ℝ) (option_type : String) :
    Except PricingError ℝ :=
  let d1 := d1_theta S K T r sigma
  let d2 := d2_theta S K T r sigma
  let left_term := (-S * normPdf d1 * sigma) / (2 * Real.sqrt T)
  if lower option_type == "call" then
    .ok (left_term + (-r * K * Real.exp (-r * T) * normCdf d2))
  else if lower option_type == "put" then
    .ok (left_term + (r * K * Real.exp (-r * T) * normCdf (-d2)))
  else
    .error .valueError

/-- `rho(S, K, T, r, sigma, option_type)` from `bsm_model.py`. -/
noncomputable def rho (S K T r sigma : ℝ) (option_type : String) :
    Except PricingError ℝ :=
  let d2 := d2_rho S K T r sigma
  if lower option_type == "call" then
    .ok (K * T * Real.exp (-r * T) * normCdf d2)
  else if lower option_type == "put" then
    .ok (-K * T * Real.exp (-r * T) * normCdf (-d2))
  else
    .error .valueError

/-- The body of the `for i in range(ITERATIONS)` loop of
`implied_volatility` in `bsm_model.py`, with the remaining iteration count
as explicit fuel: price and vega at the current `sigma`, stop with the
current `sigma` when `abs(diff) < 1.0e-5`, stop with `None` when
`abs(curr_vega) < 1e-6`, otherwise take the Newton step; when the fuel runs
out (the `for` loop finished all iterations) return `None`. -/
noncomputable def iv_loop (market_price S K T r : ℝ) (option_type : String) :
    Nat → ℝ → Except PricingError (Option ℝ)
  | 0, _ => .ok none
  | n + 1, sigma =>
    match black_scholes S K T r sigma option_type with
    | .error e => .error e
    | .ok price =>
      let curr_vega := vega S K T r sigma
      let diff := price - market_price
      if |diff| < 1.0e-5 then
        .ok (some sigma)
      else if |curr_vega| < 1e-6 then
        .ok none
      else
        iv_loop market_price S K T r option_type n (sigma - diff / curr_vega)

/-- `implied_volatility(market_price, S, K, T, r, option_type)` from
`bsm_model.py`: 100 iterations of the Newton loop started at the initial
guess `sigma = 0.5`; `.ok none` models the Python return value `None`. -/
noncomputable def implied_volatility (market_price S K T r : ℝ)
    (option_type : String) : Except PricingError (Option ℝ) :=
  iv_loop market_price S K T r option_type 100 0.5

/-- Whether a pricing call returned normally (`true`) rather than raising. -/
def is_ok : Except PricingError ℝ → Bool
  | .ok _ => true
  | .error _ => false

/-- The `d1` formula as written in the specification:
`(ln(S/K) + (r + sigma^2/2) * T) / (sigma * sqrt T)`. -/
noncomputable def spec_d1 (S K T r sigma : ℝ) : ℝ :=
  (Real.log (S / K) + (r + sigma ^ 2 / 2) * T) / (sigma * Real.sqrt T)

/-- The `d2 = d1 - sigma * sqrt T` formula as written in the specification. -/
noncomputable def spec_d2 (S K T r sigma : ℝ) : ℝ :=
  spec_d1 S K T r sigma - sigma * Real.sqrt T

/-- The call price of the model at S = K = 100, T = 1e-16, r = 0.05,
sigma = 0.5; used as a market price that the first solver iterate matches
exactly. -/
noncomputable def tiny_T_call_price : ℝ :=
  100 * normCdf (d1_black_scholes 100 100 (1e-16 : ℝ) 0.05 0.5)
    - 100 * Real.exp (-(0.05 : ℝ) * (1e-16 : ℝ))
      * normCdf (d2_black_scholes 100 100 (1e-16 : ℝ) 0.05 0.5)

lemma lower_call : lower "call" = "call" := by decide

lemma lower_put : lower "put" = "put" := by decide

lemma gauss_even (t : ℝ) : gaussianPDFReal 0 1 (-t) = gaussianPDFReal 0 1 t := by
  simp [gaussianPDFReal]

lemma normCdf_add_neg (x : ℝ) : normCdf x + normCdf (-x) = 1 := by
  have hi : Integrable (gaussianPDFReal 0 1) := integrable_gaussianPDFReal 0 1
  have h2 : normCdf (-x) = ∫ t in Ioi x, gaussianPDFReal 0 1 t := by
    rw [normCdf]
    have h3 : (∫ t in Iic (-x), gaussianPDFReal 0 1 t)
        = ∫ t in Iic (-x), gaussianPDFReal 0 1 (-t) :=
      setIntegral_congr_fun measurableSet_Iic (fun t _ => (gauss_even t).symm)
    rw [h3, integral_comp_neg_Iic, neg_neg]
  rw [normCdf, h2, intervalIntegral.integral_Iic_add_Ioi hi.integrableOn hi.integrableOn,
    integral_gaussianPDFReal_eq_one 0 (by norm_num)]

lemma normPdf_nonneg (x : ℝ) : 0 ≤ normPdf x := gaussianPDFReal_nonneg 0 1 x

lemma normPdf_le (x : ℝ) : normPdf x ≤ 0.41 := by
  have hpi : (3 : ℝ) < Real.pi := Real.pi_gt_three
  unfold normPdf gaussianPDFReal
  have h1 : Real.exp (-(x - 0) ^ 2 / (2 * ((1 : ℝ≥0) : ℝ))) ≤ 1 := by
    rw [Real.exp_le_one_iff]
    have h : (0 : ℝ) ≤ (x - 0) ^ 2 := sq_nonneg _
    rw [show ((1 : ℝ≥0) : ℝ) = 1 by norm_num]
    nlinarith
  have h2 : (2.44 : ℝ) ≤ Real.sqrt (2 * Real.pi * ((1 : ℝ≥0) : ℝ)) := by
    rw [show ((1 : ℝ≥0) : ℝ) = 1 by norm_num, mul_one]
    nlinarith [Real.sq_sqrt (by positivity : (0 : ℝ) ≤ 2 * Real.pi),
      Real.sqrt_nonneg (2 * Real.pi)]
  have h3 : (Real.sqrt (2 * Real.pi * ((1 : ℝ≥0) : ℝ)))⁻¹ ≤ (2.44 : ℝ)⁻¹ :=
    inv_anti₀ (by norm_num) h2
  have h4 : (0 : ℝ) ≤ (Real.sqrt (2 * Real.pi * ((1 : ℝ≥0) : ℝ)))⁻¹ := by positivity
  calc (Real.sqrt (2 * Real.pi * ((1 : ℝ≥0) : ℝ)))⁻¹
        * Real.exp (-(x - 0) ^ 2 / (2 * ((1 : ℝ≥0) : ℝ)))
      ≤ (Real.sqrt (2 * Real.pi * ((1 : ℝ≥0) : ℝ)))⁻¹ * 1 :=
        mul_le_mul_of_nonneg_left h1 h4
    _ ≤ (2.44 : ℝ)⁻¹ * 1 := mul_le_mul_of_nonneg_right h3 (by norm_num)
    _ ≤ 0.41 := by norm_num

lemma black_scholes_call (S K T r sigma : ℝ) (kind : String)
    (h : lower kind = "call") :
    black_scholes S K T r sigma kind
      = .ok (S * normCdf (d1_black_scholes S K T r sigma)
          - K * Real.exp (-r * T) * normCdf (d2_black_scholes S K T r sigma)) := by
  have hb : (lower kind == "call") = true := by rw [h]; exact beq_self_eq_true _
  simp only [black_scholes]
  rw [if_pos hb]

lemma black_scholes_put (S K T r sigma : ℝ) (kind : String)
    (h : lower kind = "put") :
    black_scholes S K T r sigma kind
      = .ok (K * Real.exp (-r * T) * normCdf (-d2_black_scholes S K T r sigma)
          - S * normCdf (-d1_black_scholes S K T r sigma)) := by
  have hb : ¬((lower kind == "call") = true) := by rw [h]; decide
  have hb2 : (lower kind == "put") = true := by rw [h]; exact beq_self_eq_true _
  simp only [black_scholes]
  rw [if_neg hb, if_pos hb2]

lemma black_scholes_invalid (S K T r sigma : ℝ) (kind : String)
    (hc : lower kind ≠ "call") (hp : lower kind ≠ "put") :
    black_scholes S K T r sigma kind = .error .valueError := by
  have hb : ¬((lower kind == "call") = true) := fun hh => hc (eq_of_beq hh)
  have hb2 : ¬((lower kind == "put") = true) := fun hh => hp (eq_of_beq hh)
  simp only [black_scholes]
  rw [if_neg hb, if_neg hb2]

lemma delta_call (S K T r sigma : ℝ) (kind : String) (h : lower kind = "call") :
    delta S K T r sigma kind = .ok (normCdf (d1_delta S K T r sigma)) := by
  have hb : (lower kind == "call") = true := by rw [h]; exact beq_self_eq_true _
  simp only [delta]
  rw [if_pos hb]

lemma delta_put (S K T r sigma : ℝ) (kind : String) (h : lower kind = "put") :
    delta S K T r sigma kind = .ok (normCdf (d1_delta S K T r sigma) - 1) := by
  have hb : ¬((lower kind == "call") = true) := by rw [h]; decide
  have hb2 : (lower kind == "put") = true := by rw [h]; exact beq_self_eq_true _
  simp only [delta]
  rw [if_neg hb, if_pos hb2]

lemma delta_invalid (S K T r sigma : ℝ) (kind : String)
    (hc : lower kind ≠ "call") (hp : lower kind ≠ "put") :
    delta S K T r sigma kind = .error .valueError := by
  have hb : ¬((lower kind == "call") = true) := fun hh => hc (eq_of_beq hh)
  have hb2 : ¬((lower kind == "put") = true) := fun hh => hp (eq_of_beq hh)
  simp only [delta]
  rw [if_neg hb, if_neg hb2]

lemma theta_call (S K T r sigma : ℝ) (kind : String) (h : lower kind = "call") :
    theta S K T r sigma kind
      = .ok ((-S * normPdf (d1_theta S K T r sigma) * sigma) / (2 * Real.sqrt T)
          + (-r * K * Real.exp (-r * T) * normCdf (d2_theta S K T r sigma))) := by
  have hb : (lower kind == "call") = true := by rw [h]; exact beq_self_eq_true _
  simp only [theta]
  rw [if_pos hb]

lemma theta_put (S K T r sigma : ℝ) (kind : String) (h : lower kind = "put") :
    theta S K T r sigma kind
      = .ok ((-S * normPdf (d1_theta S K T r sigma) * sigma) / (2 * Real.sqrt T)
          + (r * K * Real.exp (-r * T) * normCdf (-d2_theta S K T r sigma))) := by
  have hb : ¬((lower kind == "call") = true) := by rw [h]; decide
  have hb2 : (lower kind == "put") = true := by rw [h]; exact beq_self_eq_true _
  simp only [theta]
  rw [if_neg hb, if_pos hb2]

lemma theta_invalid (S K T r sigma : ℝ) (kind : String)
    (hc : lower kind ≠ "call") (hp : lower kind ≠ "put") :
    theta S K T r sigma kind = .error .valueError := by
  have hb : ¬((lower kind == "call") = true) := fun hh => hc (eq_of_beq hh)
  have hb2 : ¬((lower kind == "put") = true) := fun hh => hp (eq_of_beq hh)
  simp only [theta]
  rw [if_neg hb, if_neg hb2]

lemma rho_call (S K T r sigma : ℝ) (kind : String) (h : lower kind = "call") :
    rho S K T r sigma kind
      = .ok (K * T * Real.exp (-r * T) * normCdf (d2_rho S K T r sigma)) := by
  have hb : (lower kind == "call") = true := by rw [h]; exact beq_self_eq_true _
  simp only [rho]
  rw [if_pos hb]

lemma rho_put (S K T r sigma : ℝ) (kind : String) (h : lower kind = "put") :
    rho S K T r sigma kind
      = .ok (-K * T * Real.exp (-r * T) * normCdf (-d2_rho S K T r sigma)) := by
  have hb : ¬((lower kind == "call") = true) := by rw [h]; decide
  have hb2 : (lower kind == "put") = true := by rw [h]; exact beq_self_eq_true _
  simp only [rho]
  rw [if_neg hb, if_pos hb2]

lemma rho_invalid (S K T r sigma : ℝ) (kind : String)
    (hc : lower kind ≠ "call") (hp : lower kind ≠ "put") :
    rho S K T r sigma kind = .error .valueError := by
  have hb : ¬((lower kind == "call") = true) := fun hh => hc (eq_of_beq hh)
  have hb2 : ¬((lower kind == "put") = true) := fun hh => hp (eq_of_beq hh)
  simp only [rho]
  rw [if_neg hb, if_neg hb2]

lemma d1_black_scholes_spec (S K T r sigma : ℝ) :
    d1_black_scholes S K T r sigma = spec_d1 S K T r sigma := by
  unfold d1_black_scholes spec_d1; ring

lemma d2_black_scholes_spec (S K T r sigma : ℝ) :
    d2_black_scholes S K T r sigma = spec_d2 S K T r sigma := by
  unfold d2_black_scholes spec_d2
  rw [d1_black_scholes_spec]

lemma d1_delta_spec (S K T r sigma : ℝ) :
    d1_delta S K T r sigma = spec_d1 S K T r sigma := by
  unfold d1_delta spec_d1; ring

lemma d1_gamma_spec (S K T r sigma : ℝ) :
    d1_gamma S K T r sigma = spec_d1 S K T r sigma := by
  unfold d1_gamma spec_d1; ring

lemma d1_vega_spec (S K T r sigma : ℝ) :
    d1_vega S K T r sigma = spec_d1 S K T r sigma := by
  unfold d1_vega spec_d1; ring

lemma d1_theta_spec (S K T r sigma : ℝ) :
    d1_theta S K T r sigma = spec_d1 S K T r sigma := by
  unfold d1_theta spec_d1; ring

lemma d2_theta_spec (S K T r sigma : ℝ) :
    d2_theta S K T r sigma = spec_d2 S K T r sigma := by
  unfold d2_theta spec_d2
  rw [d1_theta_spec]

lemma d2_rho_spec (S K T r sigma : ℝ) :
    d2_rho S K T r sigma = spec_d2 S K T r sigma := by
  unfold d2_rho spec_d2
  rw [show d1_rho = d1_theta from rfl, d1_theta_spec]

lemma implied_volatility_eq (m S K T r : ℝ) (kind : String) :
    implied_volatility m S K T r kind = iv_loop m S K T r kind 100 0.5 := rfl

lemma iv_loop_zero (m S K T r : ℝ) (kind : String) (sigma : ℝ) :
    iv_loop m S K T r kind 0 sigma = .ok none := rfl

lemma iv_loop_stop (m S K T r : ℝ) (kind : String) (n : Nat) (sigma p : ℝ)
    (hp : black_scholes S K T r sigma kind = .ok p)
    (h : |p - m| < 1.0e-5) :
    iv_loop m S K T r kind (n + 1) sigma = .ok (some sigma) := by
  simp only [iv_loop, hp]
  rw [if_pos h]

lemma iv_loop_guard (m S K T r : ℝ) (kind : String) (n : Nat) (sigma p : ℝ)
    (hp : black_scholes S K T r sigma kind = .ok p)
    (h1 : ¬(|p - m| < 1.0e-5))
    (h2 : |vega S K T r sigma| < 1e-6) :
    iv_loop m S K T r kind (n + 1) sigma = .ok none := by
  simp only [iv_loop, hp]
  rw [if_neg h1, if_pos h2]

lemma iv_loop_next (m S K T r : ℝ) (kind : String) (n : Nat) (sigma p : ℝ)
    (hp : black_scholes S K T r sigma kind = .ok p)
    (h1 : ¬(|p - m| < 1.0e-5))
    (h2 : ¬(|vega S K T r sigma| < 1e-6)) :
    iv_loop m S K T r kind (n + 1) sigma
      = iv_loop m S K T r kind n (sigma - (p - m) / vega S K T r sigma) := by
  simp only [iv_loop, hp]
  rw [if_neg h1, if_neg h2]

lemma sqrt_tiny_T : Real.sqrt (1e-16 : ℝ) = (1e-8 : ℝ) := by
  rw [show (1e-16 : ℝ) = (1e-8 : ℝ) ^ 2 by norm_num, Real.sqrt_sq (by norm_num)]

lemma vega_tiny_T : |vega 100 100 (1e-16 : ℝ) 0.05 0.5| < 1e-6 := by
  have h1 := normPdf_le (d1_vega 100 100 (1e-16 : ℝ) 0.05 0.5)
  have h2 := normPdf_nonneg (d1_vega 100 100 (1e-16 : ℝ) 0.05 0.5)
  rw [vega, sqrt_tiny_T, abs_of_nonneg (by positivity)]
  nlinarith

/-- Claim C1: for every S > 0, K > 0, T > 0, sigma > 0 and any rate r,
`black_scholes` returns `S * Phi(d1) - K * exp(-r T) * Phi(d2)` for a call
and `K * exp(-r T) * Phi(-d2) - S * Phi(-d1)` for a put, where d1 and d2 are
the specification formulas and Phi is the standard normal CDF. -/
theorem black_scholes_formula (S K T r sigma : ℝ)
    (hS : 0 < S) (hK : 0 < K) (hT : 0 < T) (hsigma : 0 < sigma) :
    black_scholes S K T r sigma "call"
      = .ok (S * normCdf (spec_d1 S K T r sigma)
          - K * Real.exp (-r * T) * normCdf (spec_d2 S K T r sigma)) ∧
    black_scholes S K T r sigma "put"
      = .ok (K * Real.exp (-r * T) * normCdf (-spec_d2 S K T r sigma)
          - S * normCdf (-spec_d1 S K T r sigma)) := by
  constructor
  · rw [black_scholes_call S K T r sigma "call" lower_call,
      d1_black_scholes_spec, d2_black_scholes_spec]
  · rw [black_scholes_put S K T r sigma "put" lower_put,
      d1_black_scholes_spec, d2_black_scholes_spec]

/-- Witness for C1: the closed form at S = 2, K = 1, T = 1, r = 0, sigma = 1. -/
theorem black_scholes_formula_witness :
    black_scholes 2 1 1 0 1 "call"
      = .ok (2 * normCdf (spec_d1 2 1 1 0 1)
          - 1 * Real.exp (-0 * 1) * normCdf (spec_d2 2 1 1 0 1)) ∧
    black_scholes 2 1 1 0 1 "put"
      = .ok (1 * Real.exp (-0 * 1) * normCdf (-spec_d2 2 1 1 0 1)
          - 2 * normCdf (-spec_d1 2 1 1 0 1)) :=
  black_scholes_formula 2 1 1 0 1 (by norm_num) (by norm_num) (by norm_num)
    (by norm_num)

/-- Counterexample to claim C2: `black_scholes(100, 100, 0, 0.05, 0.2, call)`
does not fail at all — with T = 0 the function still returns a value, so no
`DegenerateInputs` error is raised (the module contains no such check; in
floating point the returned value is NaN, propagated silently). -/
theorem degenerate_inputs_counterexample :
    is_ok (black_scholes 100 100 0 0.05 0.2 "call") = true := by
  rw [black_scholes_call 100 100 0 0.05 0.2 "call" lower_call]
  rfl

/-- Claim C2, amended: the pricing engine has no degenerate-input guard.
For every input — including T ≤ 0 or sigma ≤ 0 — and any recognized kind,
`black_scholes`, `delta`, `theta` and `rho` return a value rather than
raising an error; NaN/Inf propagation is not intercepted. -/
theorem no_degenerate_input_guard (S K T r sigma : ℝ) (kind : String)
    (h : lower kind = "call" ∨ lower kind = "put") :
    is_ok (black_scholes S K T r sigma kind) = true ∧
    is_ok (delta S K T r sigma kind) = true ∧
    is_ok (theta S K T r sigma kind) = true ∧
    is_ok (rho S K T r sigma kind) = true := by
  rcases h with h | h
  · rw [black_scholes_call S K T r sigma kind h, delta_call S K T r sigma kind h,
      theta_call S K T r sigma kind h, rho_call S K T r sigma kind h]
    exact ⟨rfl, rfl, rfl, rfl⟩
  · rw [black_scholes_put S K T r sigma kind h, delta_put S K T r sigma kind h,
      theta_put S K T r sigma kind h, rho_put S K T r sigma kind h]
    exact ⟨rfl, rfl, rfl, rfl⟩

/-- Witness for the amended C2: at sigma = 0 (a degenerate input) the put
functions still return values. -/
theorem no_degenerate_input_guard_witness :
    is_ok (black_scholes 100 100 1 0.05 0 "put") = true ∧
    is_ok (delta 100 100 1 0.05 0 "put") = true ∧
    is_ok (theta 100 100 1 0.05 0 "put") = true ∧
    is_ok (rho 100 100 1 0.05 0 "put") = true :=
  no_degenerate_input_guard 100 100 1 0.05 0 "put" (Or.inr lower_put)

/-- Claim C3: `implied_volatility` is Newton iteration on
`f(sigma) = price(sigma) - market_price` from the seed 0.5 with at most 100
iterations: it returns the current iterate when `|f| < 1e-5`, otherwise (when
the near-zero-vega guard also does not fire) moves to
`sigma - f(sigma)/vega(sigma)`, and exhausting the iteration budget yields
`None` as a normal value, not an error. -/
theorem implied_volatility_newton (m S K T r : ℝ) (kind : String)
    (sigma p : ℝ) (n : Nat)
    (hp : black_scholes S K T r sigma kind = .ok p) :
    implied_volatility m S K T r kind = iv_loop m S K T r kind 100 0.5 ∧
    iv_loop m S K T r kind 0 sigma = .ok none ∧
    (|p - m| < 1.0e-5 → iv_loop m S K T r kind (n + 1) sigma = .ok (some sigma)) ∧
    (¬(|p - m| < 1.0e-5) → ¬(|vega S K T r sigma| < 1e-6) →
      iv_loop m S K T r kind (n + 1) sigma
        = iv_loop m S K T r kind n (sigma - (p - m) / vega S K T r sigma)) :=
  ⟨implied_volatility_eq m S K T r kind, iv_loop_zero m S K T r kind sigma,
   fun h => iv_loop_stop m S K T r kind n sigma p hp h,
   fun h1 h2 => iv_loop_next m S K T r kind n sigma p hp h1 h2⟩

/-- Witness for C3: the Newton-loop characterization at concrete inputs. -/
theorem implied_volatility_newton_witness :
    implied_volatility 0 1 1 1 0 "call" = iv_loop 0 1 1 1 0 "call" 100 0.5 ∧
    iv_loop 0 1 1 1 0 "call" 0 0.5 = .ok none ∧
    (|(1 * normCdf (d1_black_scholes 1 1 1 0 0.5)
        - 1 * Real.exp (-0 * 1) * normCdf (d2_black_scholes 1 1 1 0 0.5)) - 0|
        < 1.0e-5 →
      iv_loop 0 1 1 1 0 "call" (0 + 1) 0.5 = .ok (some 0.5)) ∧
    (¬(|(1 * normCdf (d1_black_scholes 1 1 1 0 0.5)
        - 1 * Real.exp (-0 * 1) * normCdf (d2_black_scholes 1 1 1 0 0.5)) - 0|
        < 1.0e-5) →
      ¬(|vega 1 1 1 0 0.5| < 1e-6) →
      iv_loop 0 1 1 1 0 "call" (0 + 1) 0.5
        = iv_loop 0 1 1 1 0 "call" 0
            (0.5 - ((1 * normCdf (d1_black_scholes 1 1 1 0 0.5)
              - 1 * Real.exp (-0 * 1) * normCdf (d2_black_scholes 1 1 1 0 0.5)) - 0)
              / vega 1 1 1 0 0.5)) :=
  implied_volatility_newton 0 1 1 1 0 "call" 0.5 _ 0
    (black_scholes_call 1 1 1 0 0.5 "call" lower_call)

/-- Counterexample to claim C4: an iterate with `|vega| < 1e-6` from which
the solver does not return `NotFound`. At S = K = 100, T = 1e-16,
sigma0 = 0.5, vega is below 1e-6; with the market price equal to the model
price at the seed, the convergence test fires first and the solver returns
the iterate 0.5, not `NotFound`. -/
theorem vega_guard_counterexample :
    |vega 100 100 (1e-16 : ℝ) 0.05 0.5| < 1e-6 ∧
    implied_volatility tiny_T_call_price 100 100 (1e-16 : ℝ) 0.05 "call"
      = .ok (some 0.5) := by
  refine ⟨vega_tiny_T, ?_⟩
  rw [implied_volatility_eq]
  have hp : black_scholes 100 100 (1e-16 : ℝ) 0.05 0.5 "call"
      = .ok tiny_T_call_price := by
    rw [black_scholes_call 100 100 (1e-16 : ℝ) 0.05 0.5 "call" lower_call]
    rfl
  exact iv_loop_stop tiny_T_call_price 100 100 (1e-16 : ℝ) 0.05 "call" 99 0.5
    tiny_T_call_price hp (by rw [sub_self, abs_zero]; norm_num)

/-- Claim C4, amended: when an iterate fails the convergence test
(`|f(sigma)| ≥ 1e-5`) and has `|vega(sigma)| < 1e-6`, the solver stops at
that iteration and returns `NotFound`; the convergence test takes precedence
when both conditions hold. -/
theorem vega_guard_stops_with_notfound (m S K T r : ℝ) (kind : String)
    (sigma p : ℝ) (n : Nat)
    (hp : black_scholes S K T r sigma kind = .ok p)
    (h1 : ¬(|p - m| < 1.0e-5))
    (h2 : |vega S K T r sigma| < 1e-6) :
    iv_loop m S K T r kind (n + 1) sigma = .ok none ∧
    (sigma = 0.5 → implied_volatility m S K T r kind = .ok none) := by
  refine ⟨iv_loop_guard m S K T r kind n sigma p hp h1 h2, fun hs => ?_⟩
  rw [implied_volatility_eq]
  subst hs
  exact iv_loop_guard m S K T r kind 99 0.5 p hp h1 h2

/-- Witness for the amended C4: at T = 1e-16 with a market price one unit
away from the model price, the first iterate trips the vega guard and the
solver returns `NotFound`. -/
theorem vega_guard_stops_with_notfound_witness :
    iv_loop (tiny_T_call_price + 1) 100 100 (1e-16 : ℝ) 0.05 "call" (0 + 1) 0.5
      = .ok none ∧
    ((0.5 : ℝ) = 0.5 →
      implied_volatility (tiny_T_call_price + 1) 100 100 (1e-16 : ℝ) 0.05 "call"
        = .ok none) :=
  vega_guard_stops_with_notfound (tiny_T_call_price + 1) 100 100 (1e-16 : ℝ)
    0.05 "call" 0.5 tiny_T_call_price 0
    (by rw [black_scholes_call 100 100 (1e-16 : ℝ) 0.05 0.5 "call" lower_call]
        rfl)
    (by rw [show tiny_T_call_price - (tiny_T_call_price + 1) = -1 by ring,
          abs_neg, abs_one]
        norm_num)
    vega_tiny_T

/-- Claim C5: for any kind whose lowercase form is neither call nor put,
`black_scholes`, `delta`, `theta` and `rho` raise the invalid-option-type
`ValueError` (the typed condition the spec names `InvalidOptionKind`), never
silently defaulting. -/
theorem invalid_kind_raises (S K T r sigma : ℝ) (kind : String)
    (hc : lower kind ≠ "call") (hp2 : lower kind ≠ "put") :
    black_scholes S K T r sigma kind = .error .valueError ∧
    delta S K T r sigma kind = .error .valueError ∧
    theta S K T r sigma kind = .error .valueError ∧
    rho S K T r sigma kind = .error .valueError :=
  ⟨black_scholes_invalid S K T r sigma kind hc hp2,
   delta_invalid S K T r sigma kind hc hp2,
   theta_invalid S K T r sigma kind hc hp2,
   rho_invalid S K T r sigma kind hc hp2⟩

/-- Witness for C5: `price(100, 100, 1, 0.05, 0.2, straddle)` fails with the
invalid-option-type error, as do the kinded Greeks. -/
theorem invalid_kind_raises_witness :
    black_scholes 100 100 1 0.05 0.2 "straddle" = .error .valueError ∧
    delta 100 100 1 0.05 0.2 "straddle" = .error .valueError ∧
    theta 100 100 1 0.05 0.2 "straddle" = .error .valueError ∧
    rho 100 100 1 0.05 0.2 "straddle" = .error .valueError :=
  invalid_kind_raises 100 100 1 0.05 0.2 "straddle" (by decide) (by decide)

/-- Claim C6: put-call parity. For valid inputs the call price minus the put
price equals `S - K * exp(-r T)`; the difference is exactly zero, hence
within the 1e-8 tolerance. -/
theorem put_call_parity (S K T r sigma : ℝ)
    (hS : 0 < S) (hK : 0 < K) (hT : 0 < T) (hsigma : 0 < sigma)
    (c p : ℝ)
    (hc : black_scholes S K T r sigma "call" = .ok c)
    (hp : black_scholes S K T r sigma "put" = .ok p) :
    |c - p - (S - K * Real.exp (-r * T))| ≤ 1e-8 := by
  rw [black_scholes_call S K T r sigma "call" lower_call] at hc
  rw [black_scholes_put S K T r sigma "put" lower_put] at hp
  have hc2 := Except.ok.inj hc
  have hp2 := Except.ok.inj hp
  have H1 := normCdf_add_neg (d1_black_scholes S K T r sigma)
  have H2 := normCdf_add_neg (d2_black_scholes S K T r sigma)
  have hz : c - p - (S - K * Real.exp (-r * T)) = 0 := by
    rw [← hc2, ← hp2]
    linear_combination S * H1 - K * Real.exp (-r * T) * H2
  rw [hz, abs_zero]
  norm_num

/-- Witness for C6: parity at S = 3, K = 2, T = 1, r = 0, sigma = 1. -/
theorem put_call_parity_witness :
    |(3 * normCdf (d1_black_scholes 3 2 1 0 1)
        - 2 * Real.exp (-0 * 1) * normCdf (d2_black_scholes 3 2 1 0 1))
      - (2 * Real.exp (-0 * 1) * normCdf (-d2_black_scholes 3 2 1 0 1)
        - 3 * normCdf (-d1_black_scholes 3 2 1 0 1))
      - (3 - 2 * Real.exp (-0 * 1))| ≤ 1e-8 :=
  put_call_parity 3 2 1 0 1 (by norm_num) (by norm_num) (by norm_num)
    (by norm_num) _ _
    (black_scholes_call 3 2 1 0 1 "call" lower_call)
    (black_scholes_put 3 2 1 0 1 "put" lower_put)

/-- Claim C7: each Greek equals its stated closed form, with d1, d2 the
specification formulas, Phi the standard normal CDF and phi its density;
gamma and vega take no kind argument. -/
theorem greeks_closed_forms (S K T r sigma : ℝ) :
    delta S K T r sigma "call" = .ok (normCdf (spec_d1 S K T r sigma)) ∧
    delta S K T r sigma "put" = .ok (normCdf (spec_d1 S K T r sigma) - 1) ∧
    gamma S K T r sigma
      = normPdf (spec_d1 S K T r sigma) / (S * sigma * Real.sqrt T) ∧
    vega S K T r sigma = S * normPdf (spec_d1 S K T r sigma) * Real.sqrt T ∧
    theta S K T r sigma "call"
      = .ok (-S * normPdf (spec_d1 S K T r sigma) * sigma / (2 * Real.sqrt T)
          - r * K * Real.exp (-r * T) * normCdf (spec_d2 S K T r sigma)) ∧
    theta S K T r sigma "put"
      = .ok (-S * normPdf (spec_d1 S K T r sigma) * sigma / (2 * Real.sqrt T)
          + r * K * Real.exp (-r * T) * normCdf (-spec_d2 S K T r sigma)) ∧
    rho S K T r sigma "call"
      = .ok (K * T * Real.exp (-r * T) * normCdf (spec_d2 S K T r sigma)) ∧
    rho S K T r sigma "put"
      = .ok (-K * T * Real.exp (-r * T) * normCdf (-spec_d2 S K T r sigma)) := by
  refine ⟨?_, ?_, ?_, ?_, ?_, ?_, ?_, ?_⟩
  · rw [delta_call S K T r sigma "call" lower_call, d1_delta_spec]
  · rw [delta_put S K T r sigma "put" lower_put, d1_delta_spec]
  · unfold gamma
    rw [d1_gamma_spec]
  · unfold vega
    rw [d1_vega_spec]
  · rw [theta_call S K T r sigma "call" lower_call, d1_theta_spec, d2_theta_spec]
    simp only [Except.ok.injEq]
    ring
  · rw [theta_put S K T r sigma "put" lower_put, d1_theta_spec, d2_theta_spec]
  · rw [rho_call S K T r sigma "call" lower_call, d2_rho_spec]
  · rw [rho_put S K T r sigma "put" lower_put, d2_rho_spec]

/-- Claim C9: the d1 and d2 expressions written separately inside
`black_scholes`, `delta`, `gamma`, `vega`, `theta` and `rho` are the same
function of the inputs — no recomputation path drifts. -/
theorem d1_d2_consistency (S K T r sigma : ℝ) :
    d1_black_scholes S K T r sigma = d1_delta S K T r sigma ∧
    d1_delta S K T r sigma = d1_gamma S K T r sigma ∧
    d1_gamma S K T r sigma = d1_vega S K T r sigma ∧
    d1_vega S K T r sigma = d1_theta S K T r sigma ∧
    d1_theta S K T r sigma = d1_rho S K T r sigma ∧
    d2_black_scholes S K T r sigma = d2_theta S K T r sigma ∧
    d2_theta S K T r sigma = d2_rho S K T r sigma :=
  ⟨rfl, rfl, rfl, rfl, rfl, rfl, rfl⟩

/-- Claim C10: the kind argument is matched case-insensitively: any string
lowercasing to call (resp. put) gives exactly the result of the lowercase
kind, and the invalid-kind error is raised precisely when the lowercase form
is neither. -/
theorem kind_case_insensitive (S K T r sigma : ℝ) (kind : String) :
    (lower kind = "call" →
      black_scholes S K T r sigma kind = black_scholes S K T r sigma "call" ∧
      delta S K T r sigma kind = delta S K T r sigma "call" ∧
      theta S K T r sigma kind = theta S K T r sigma "call" ∧
      rho S K T r sigma kind = rho S K T r sigma "call") ∧
    (lower kind = "put" →
      black_scholes S K T r sigma kind = black_scholes S K T r sigma "put" ∧
      delta S K T r sigma kind = delta S K T r sigma "put" ∧
      theta S K T r sigma kind = theta S K T r sigma "put" ∧
      rho S K T r sigma kind = rho S K T r sigma "put") ∧
    (lower kind ≠ "call" → lower kind ≠ "put" →
      black_scholes S K T r sigma kind = .error .valueError ∧
      delta S K T r sigma kind = .error .valueError ∧
      theta S K T r sigma kind = .error .valueError ∧
      rho S K T r sigma kind = .error .valueError) := by
  refine ⟨fun h => ?_, fun h => ?_, fun h1 h2 => ?_⟩
  · exact ⟨by rw [black_scholes_call S K T r sigma kind h,
        black_scholes_call S K T r sigma "call" lower_call],
      by rw [delta_call S K T r sigma kind h,
        delta_call S K T r sigma "call" lower_call],
      by rw [theta_call S K T r sigma kind h,
        theta_call S K T r sigma "call" lower_call],
      by rw [rho_call S K T r sigma kind h,
        rho_call S K T r sigma "call" lower_call]⟩
  · exact ⟨by rw [black_scholes_put S K T r sigma kind h,
        black_scholes_put S K T r sigma "put" lower_put],
      by rw [delta_put S K T r sigma kind h,
        delta_put S K T r sigma "put" lower_put],
      by rw [theta_put S K T r sigma kind h,
        theta_put S K T r sigma "put" lower_put],
      by rw [rho_put S K T r sigma kind h,
        rho_put S K T r sigma "put" lower_put]⟩
  · exact ⟨black_scholes_invalid S K T r sigma kind h1 h2,
      delta_invalid S K T r sigma kind h1 h2,
      theta_invalid S K T r sigma kind h1 h2,
      rho_invalid S K T r sigma kind h1 h2⟩

/-- Witness for C10: the uppercase kind CALL prices exactly as call. -/
theorem kind_case_insensitive_witness :
    black_scholes 1 1 1 0 1 "CALL" = black_scholes 1 1 1 0 1 "call" ∧
    delta 1 1 1 0 1 "CALL" = delta 1 1 1 0 1 "call" ∧
    theta 1 1 1 0 1 "CALL" = theta 1 1 1 0 1 "call" ∧
    rho 1 1 1 0 1 "CALL" = rho 1 1 1 0 1 "call" :=
  (kind_case_insensitive 1 1 1 0 1 "CALL").1 (by decide)

end BSM
